import Mathlib

/-!
Shallow embedding of the yeyo-back data-access core.

Python dicts preserve insertion order, so a field map is embedded as an
association list `List (String × α)` whose list order is the dict
iteration order.  Fallible Python functions (those that may `raise`)
become functions into `Except`; the raised exception class becomes a
constructor of an error inductive.  Stateful operations against the
backing store are embedded as explicit state passing over a small store
model that realises the uniqueness / primary-key behaviour of the
PostgreSQL tables the code talks to.
-/

namespace YeyoBack

/-- Error raised by the query builders (Python `ValueError`). -/
inductive BuilderError where
  | valueError (msg : String)
  deriving DecidableEq, Repr

/-! ### Query builders, copy 1: `app/core/utils.py` -/

namespace Utils

/-- The `update_fields` list built by the loop
`for idx, (field, value) in enumerate(update_data.items(), start=1)`
in `build_update_query` (`app/core/utils.py`). -/
def update_fields_list {α : Type} (update_data : List (String × α)) : List String :=
  update_data.enum.map (fun p => p.2.1 ++ " = $" ++ toString (p.1 + 1))

/-- `build_update_query` from `app/core/utils.py`. -/
def build_update_query {α : Type} (table_name : String) (update_data : List (String × α))
    (id_field : String) (id_value : α) : Except BuilderError (String × List α) :=
  if update_data.isEmpty then
    Except.error (BuilderError.valueError "No hay datos para actualizar")
  else
    let update_fields := update_fields_list update_data
    let values := update_data.map Prod.snd
    let query := "\n        UPDATE " ++ table_name ++ " \n        SET " ++
      String.intercalate ", " update_fields ++ "\n        WHERE " ++ id_field ++
      " = $" ++ toString (values.length + 1) ++ "\n        RETURNING *\n    "
    Except.ok (query, values ++ [id_value])

/-- The `placeholders` list `[f"${i}" for i in range(1, len(fields) + 1)]`
in `build_insert_query` (`app/core/utils.py`). -/
def insert_placeholders (n : Nat) : List String :=
  (List.range' 1 n).map (fun i => "$" ++ toString i)

/-- `build_insert_query` from `app/core/utils.py`. -/
def build_insert_query {α : Type} (table_name : String) (data : List (String × α)) :
    Except BuilderError (String × List α) :=
  if data.isEmpty then
    Except.error (BuilderError.valueError "No hay datos para insertar")
  else
    let fields := data.map Prod.fst
    let placeholders := insert_placeholders fields.length
    let values := data.map Prod.snd
    let query := "\n        INSERT INTO " ++ table_name ++ " (" ++
      String.intercalate ", " fields ++ ")\n        VALUES (" ++
      String.intercalate ", " placeholders ++ ")\n        RETURNING *\n    "
    Except.ok (query, values)

end Utils

/-! ### Query builders, copy 2: the identically named functions duplicated
at the top of `app/core/base_repository.py` (lines 21-109). -/

namespace BaseRepo

/-- The `update_fields` list built by the loop in `build_update_query`
(`app/core/base_repository.py`). -/
def update_fields_list {α : Type} (update_data : List (String × α)) : List String :=
  update_data.enum.map (fun p => p.2.1 ++ " = $" ++ toString (p.1 + 1))

/-- `build_update_query` from `app/core/base_repository.py`. -/
def build_update_query {α : Type} (table_name : String) (update_data : List (String × α))
    (id_field : String) (id_value : α) : Except BuilderError (String × List α) :=
  if update_data.isEmpty then
    Except.error (BuilderError.valueError "No hay datos para actualizar")
  else
    let update_fields := update_fields_list update_data
    let values := update_data.map Prod.snd
    let query := "\n        UPDATE " ++ table_name ++ " \n        SET " ++
      String.intercalate ", " update_fields ++ "\n        WHERE " ++ id_field ++
      " = $" ++ toString (values.length + 1) ++ "\n        RETURNING *\n    "
    Except.ok (query, values ++ [id_value])

/-- The `placeholders` list in `build_insert_query`
(`app/core/base_repository.py`). -/
def insert_placeholders (n : Nat) : List String :=
  (List.range' 1 n).map (fun i => "$" ++ toString i)

/-- `build_insert_query` from `app/core/base_repository.py`. -/
def build_insert_query {α : Type} (table_name : String) (data : List (String × α)) :
    Except BuilderError (String × List α) :=
  if data.isEmpty then
    Except.error (BuilderError.valueError "No hay datos para insertar")
  else
    let fields := data.map Prod.fst
    let placeholders := insert_placeholders fields.length
    let values := data.map Prod.snd
    let query := "\n        INSERT INTO " ++ table_name ++ " (" ++
      String.intercalate ", " fields ++ ")\n        VALUES (" ++
      String.intercalate ", " placeholders ++ ")\n        RETURNING *\n    "
    Except.ok (query, values)

end BaseRepo

/-! ### Generic store model and `BaseRepository` (`app/core/base_repository.py`)

The backing store is a PostgreSQL table; a decoded row is a mapping from
column name to value and the table is a list of rows.  `writes` counts the
mutating statements the repository has issued, so that "issues no write
statement" is observable in the model. -/

/-- A decoded row, column name to value (the `dict(row)` the code builds). -/
abbrev Row (α : Type) := List (String × α)

/-- Value of column `f` in row `r`, if present. -/
def Row.getField {α : Type} (r : Row α) (f : String) : Option α :=
  (r.find? (fun p => p.1 == f)).map Prod.snd

/-- `SET f = v` applied to a row: replaces the value of an existing column. -/
def Row.setField {α : Type} (r : Row α) (f : String) (v : α) : Row α :=
  r.map (fun p => if p.1 == f then (p.1, v) else p)

/-- State of one backing table plus a count of mutating statements issued. -/
structure Store (α : Type) where
  rows : List (Row α)
  writes : Nat
  deriving DecidableEq, Repr

/-- `conn.fetchrow("SELECT * FROM t WHERE f = $1", v)`: first row whose
column `f` holds `v`. -/
def Store.fetchByField {α : Type} [BEq α] (s : Store α) (f : String) (v : α) :
    Option (Row α) :=
  s.rows.find? (fun r => r.getField f == some v)

/-- Store-level execution of `UPDATE t SET data WHERE idf = idv RETURNING *`:
updates every matching row (at most one when `idf` is a primary key) and
returns the updated row, or no row when nothing matched. -/
def Store.execUpdate {α : Type} [BEq α] (s : Store α) (idf : String) (idv : α)
    (data : List (String × α)) : Option (Row α) × Store α :=
  match s.rows.find? (fun r => r.getField idf == some idv) with
  | none => (none, { s with writes := s.writes + 1 })
  | some r =>
      let r2 := data.foldl (fun acc fv => acc.setField fv.1 fv.2) r
      (some r2,
       { rows := s.rows.map (fun row => if row.getField idf == some idv then r2 else row),
         writes := s.writes + 1 })

/-- Store-level execution of `DELETE FROM t WHERE idf = $1`: removes the
matching rows and returns the asyncpg status string `"DELETE n"` where `n`
is the number of rows removed. -/
def Store.execDelete {α : Type} [BEq α] (s : Store α) (idf : String) (idv : α) :
    String × Store α :=
  let n := (s.rows.filter (fun r => r.getField idf == some idv)).length
  ("DELETE " ++ toString n,
   { rows := s.rows.filter (fun r => !(r.getField idf == some idv)), writes := s.writes + 1 })

/-- Errors raised by `BaseRepository` (`app/core/exceptions.py` plus the
`ValueError` of the builder, which `update` re-raises unchanged). -/
inductive RepoError (α : Type) where
  | notFound (entity : String) (id_value : α)
  | databaseError (msg : String)
  | valueError (msg : String)
  deriving DecidableEq, Repr

/-- The per-entity descriptor held by `BaseRepository.__init__`. -/
structure BaseRepository where
  table_name : String
  id_field : String
  schema : Option String
  deriving DecidableEq, Repr

/-- `self.full_table_name = f"{schema}.{table_name}" if schema else table_name`. -/
def BaseRepository.full_table_name (repo : BaseRepository) : String :=
  match repo.schema with
  | some sch => sch ++ "." ++ repo.table_name
  | none => repo.table_name

/-- `BaseRepository.find_by_id`: fetch by the id column, `None` when absent. -/
def BaseRepository.find_by_id {α : Type} [BEq α] (repo : BaseRepository) (s : Store α)
    (id_value : α) : Option (Row α) :=
  s.fetchByField repo.id_field id_value

/-- `BaseRepository.update` (`app/core/base_repository.py` lines 217-255):
with an empty field map it fetches the current row (raising `NotFoundError`
when absent) and issues no statement; otherwise it builds the UPDATE via
`build_update_query` and executes it, raising `NotFoundError` when the
store returns no row.  A `ValueError` from the builder would propagate
unchanged (the `except` clause re-raises). -/
def BaseRepository.update {α : Type} [BEq α] (repo : BaseRepository) (s : Store α)
    (id_value : α) (data : List (String × α)) :
    Except (RepoError α) (Row α) × Store α :=
  if data.isEmpty then
    match repo.find_by_id s id_value with
    | none => (Except.error (RepoError.notFound repo.table_name id_value), s)
    | some existing => (Except.ok existing, s)
  else
    match BaseRepo.build_update_query repo.full_table_name data repo.id_field id_value with
    | Except.error (BuilderError.valueError m) => (Except.error (RepoError.valueError m), s)
    | Except.ok _ =>
        match s.execUpdate repo.id_field id_value data with
        | (none, s2) => (Except.error (RepoError.notFound repo.table_name id_value), s2)
        | (some row, s2) => (Except.ok row, s2)

/-- Python `result.split()[-1]` on a status string without trailing
whitespace: the characters after the last space. -/
def lastWhitespaceToken (s : String) : String :=
  (s.toList.foldl (fun acc c => if c = ' ' then [] else acc ++ [c]) []).asString

/-- Python `int()` applied to a string of decimal digits. -/
def parseNat (s : String) : Nat :=
  s.toList.foldl (fun acc c => acc * 10 + (c.toNat - 48)) 0

/-- `BaseRepository.delete` (`app/core/base_repository.py` lines 257-282):
executes the DELETE, parses the trailing count of the status string with
`int(result.split()[-1])`, raises `NotFoundError` when it is zero and
returns `True` otherwise.  (The status string is always `"DELETE n"`, on
which the split/parse is exactly `lastWhitespaceToken`/`parseNat`.) -/
def BaseRepository.delete {α : Type} [BEq α] (repo : BaseRepository) (s : Store α)
    (id_value : α) : Except (RepoError α) Bool × Store α :=
  let res := s.execDelete repo.id_field id_value
  let deleted_count := parseNat (lastWhitespaceToken res.1)
  if deleted_count == 0 then
    (Except.error (RepoError.notFound repo.table_name id_value), res.2)
  else
    (Except.ok true, res.2)

/-! ### Connection pool gateway (`app/core/database.py`) -/

/-- An established asyncpg pool handle (opaque in the model). -/
structure Pool where
  id : Nat
  deriving DecidableEq, Repr

/-- The mutable state of the singleton: the `_connection_pool` attribute. -/
structure DBConnState where
  connection_pool : Option Pool
  deriving DecidableEq, Repr

/-- The asyncpg environment: outcome of `create_pool`, of acquiring a
connection from a pool, and of `fetchval("SELECT 1")` on a connection. -/
structure PgEnv where
  create_pool : Except String Pool
  acquire : Pool → Except String Nat
  fetchval_select1 : Nat → Except String Int

/-- `DatabaseConnection.connect` (`app/core/database.py` lines 37-57):
creates the pool only when `_connection_pool is None`; a creation failure
is logged and re-raised, leaving the state unchanged. -/
def DatabaseConnection.connect (env : PgEnv) (st : DBConnState) :
    Except String Unit × DBConnState :=
  match st.connection_pool with
  | some _ => (Except.ok (), st)
  | none =>
      match env.create_pool with
      | Except.ok p => (Except.ok (), { connection_pool := some p })
      | Except.error e => (Except.error e, st)

/-- `DatabaseConnection.disconnect` (lines 59-64): closes the pool and sets
`_connection_pool = None`; a no-op when the pool is already absent. -/
def DatabaseConnection.disconnect (st : DBConnState) : DBConnState :=
  match st.connection_pool with
  | some _ => { connection_pool := none }
  | none => st

/-- `DatabaseConnection.get_connection` (lines 66-83): lazily connects when
the pool is absent, then acquires a connection from the pool. -/
def DatabaseConnection.get_connection (env : PgEnv) (st : DBConnState) :
    Except String Nat × DBConnState :=
  match st.connection_pool with
  | some p => (env.acquire p, st)
  | none =>
      match env.create_pool with
      | Except.error e => (Except.error e, st)
      | Except.ok p => (env.acquire p, { connection_pool := some p })

/-- `DatabaseConnection.health_check` (lines 144-157): acquires a connection,
runs `SELECT 1`, returns `True`; any exception on either step is caught and
turned into `False`. -/
def DatabaseConnection.health_check (env : PgEnv) (st : DBConnState) :
    Bool × DBConnState :=
  match DatabaseConnection.get_connection env st with
  | (Except.error _, st2) => (false, st2)
  | (Except.ok conn, st2) =>
      match env.fetchval_select1 conn with
      | Except.error _ => (false, st2)
      | Except.ok _ => (true, st2)

/-! ### Proveedor entity (`app/models/proveedor.py`, `app/service/proveedor_service.py`)

`Decimal` columns are embedded as integers (the amount in cents); `datetime`
columns of the compra entity as integers (epoch seconds).  Neither claim
depends on the arithmetic of those values, only on equality. -/

/-- `ProveedorCreate` (`app/models/proveedor.py`). -/
structure ProveedorCreate where
  nombre : String
  nit : String
  descripcion : Option String
  num_art_comprados : Int
  num_art_devoluciones : Int
  num_art_vendidas : Int
  num_compras : Int
  valor_comprado : Int
  num_devoluciones : Int
  valor_devuelto : Int
  num_ventas : Int
  valor_vendido : Int
  rating_art_provedor : Option Int
  deriving DecidableEq, Repr

/-- `ProveedorResponse`: the base fields plus the generated `id_proveedor`. -/
structure ProveedorResponse extends ProveedorCreate where
  id_proveedor : Int
  deriving DecidableEq, Repr

/-- `ProveedorUpdate` (`app/models/proveedor.py`): every field optional. -/
structure ProveedorUpdate where
  nombre : Option String
  nit : Option String
  descripcion : Option String
  num_art_comprados : Option Int
  num_art_devoluciones : Option Int
  num_art_vendidas : Option Int
  num_compras : Option Int
  valor_comprado : Option Int
  num_devoluciones : Option Int
  valor_devuelto : Option Int
  num_ventas : Option Int
  valor_vendido : Option Int
  rating_art_provedor : Option Int
  deriving DecidableEq, Repr

/-- Exceptions raised by asyncpg statement execution.
`UniqueViolationError` and `ForeignKeyViolationError` are subclasses of
`PostgresError` in Python, so a handler for `PostgresError` also catches
them when no more specific clause comes first. -/
inductive PgError where
  | uniqueViolation
  | foreignKeyViolation
  | postgresError (msg : String)
  deriving DecidableEq, Repr

/-- The `psa_problems.proveedor` table (UNIQUE constraint on `nit`,
primary key `id_proveedor`), plus a trace counter of INSERT statements
issued to it — `insert_attempts` grows exactly when the store-level
uniqueness constraint is exercised by an INSERT. -/
structure ProvStore where
  rows : List ProveedorResponse
  next_id : Int
  insert_attempts : Nat
  deriving DecidableEq, Repr

/-- Store-level `INSERT INTO psa_problems.proveedor ... RETURNING *`:
the uniqueness constraint on `nit` rejects a duplicate; otherwise the row
is stored under a fresh id and returned.  (Postgres always returns the
inserted row, but the code checks for `None`, hence the `Option`.) -/
def ProvStore.execInsert (s : ProvStore) (d : ProveedorCreate) :
    Except PgError (Option ProveedorResponse) × ProvStore :=
  let s1 := { s with insert_attempts := s.insert_attempts + 1 }
  if s.rows.any (fun r => r.nit == d.nit) then
    (Except.error PgError.uniqueViolation, s1)
  else
    let row : ProveedorResponse := { d with id_proveedor := s.next_id }
    (Except.ok (some row), { s1 with rows := s.rows ++ [row], next_id := s.next_id + 1 })

/-- Errors surfaced by `ProveedorService` (`app/service/proveedor_service.py`):
its own exception hierarchy, the Python builtin `ValueError` that
`update_proveedor` raises, and an uncaught asyncpg error re-raised by a
bare `raise`. -/
inductive ProvServiceError where
  | proveedorServiceError (msg : String)
  | proveedorNotFound (msg : String)
  | duplicateProveedor (msg : String)
  | valueError (msg : String)
  | pgRaised (e : PgError)
  deriving DecidableEq, Repr

/-- `ProveedorService.create_proveedor` (lines 26-81): issues the INSERT
directly — there is no duplicate pre-check — and maps the
`UniqueViolationError` to `DuplicateProveedorError`, any other
`PostgresError` (including a foreign-key violation, a subclass) to
`ProveedorServiceError`. -/
def ProveedorService.create_proveedor (s : ProvStore) (d : ProveedorCreate) :
    Except ProvServiceError ProveedorResponse × ProvStore :=
  match s.execInsert d with
  | (Except.ok (some row), s2) => (Except.ok row, s2)
  | (Except.ok none, s2) =>
      (Except.error (ProvServiceError.proveedorServiceError "No se pudo crear el proveedor"), s2)
  | (Except.error PgError.uniqueViolation, s2) =>
      (Except.error (ProvServiceError.duplicateProveedor
        ("Ya existe un proveedor con el NIT: " ++ d.nit)), s2)
  | (Except.error PgError.foreignKeyViolation, s2) =>
      (Except.error (ProvServiceError.proveedorServiceError
        "Error de base de datos: foreign key violation"), s2)
  | (Except.error (PgError.postgresError e), s2) =>
      (Except.error (ProvServiceError.proveedorServiceError
        ("Error de base de datos: " ++ e)), s2)

/-- `ProveedorService.get_proveedor_by_id` (lines 83-93). -/
def ProveedorService.get_proveedor_by_id (s : ProvStore) (id_proveedor : Int) :
    Option ProveedorResponse :=
  s.rows.find? (fun r => r.id_proveedor == id_proveedor)

/-- One step of the `if <field> is not None` chain in `update_proveedor`:
appends `name = $<param_counter>` and the value; `param_counter` is always
`len(values) + 1`. -/
def ProveedorService.addUpdateField {π : Type} (acc : List String × List π)
    (name : String) (v : Option π) : List String × List π :=
  match v with
  | none => acc
  | some pv => (acc.1 ++ [name ++ " = $" ++ toString (acc.2.length + 1)], acc.2 ++ [pv])

/-- A positional SQL parameter of `update_proveedor` (string or numeric). -/
inductive PgParam where
  | s (v : String)
  | i (v : Int)
  deriving DecidableEq, Repr

/-- The `update_fields`/`values` pair built by the thirteen sequential
`if ... is not None` blocks of `update_proveedor` (lines 119-186). -/
def ProveedorService.updateFieldsValues (u : ProveedorUpdate) :
    List String × List PgParam :=
  let acc : List String × List PgParam := ([], [])
  let acc := ProveedorService.addUpdateField acc "nombre" (u.nombre.map PgParam.s)
  let acc := ProveedorService.addUpdateField acc "nit" (u.nit.map PgParam.s)
  let acc := ProveedorService.addUpdateField acc "descripcion" (u.descripcion.map PgParam.s)
  let acc := ProveedorService.addUpdateField acc "num_art_comprados" (u.num_art_comprados.map PgParam.i)
  let acc := ProveedorService.addUpdateField acc "num_art_devoluciones" (u.num_art_devoluciones.map PgParam.i)
  let acc := ProveedorService.addUpdateField acc "num_art_vendidas" (u.num_art_vendidas.map PgParam.i)
  let acc := ProveedorService.addUpdateField acc "num_compras" (u.num_compras.map PgParam.i)
  let acc := ProveedorService.addUpdateField acc "valor_comprado" (u.valor_comprado.map PgParam.i)
  let acc := ProveedorService.addUpdateField acc "num_devoluciones" (u.num_devoluciones.map PgParam.i)
  let acc := ProveedorService.addUpdateField acc "valor_devuelto" (u.valor_devuelto.map PgParam.i)
  let acc := ProveedorService.addUpdateField acc "num_ventas" (u.num_ventas.map PgParam.i)
  let acc := ProveedorService.addUpdateField acc "valor_vendido" (u.valor_vendido.map PgParam.i)
  ProveedorService.addUpdateField acc "rating_art_provedor" (u.rating_art_provedor.map PgParam.i)

/-- The UPDATE applied to a row: each field that `is not None` overwrites
the stored column. -/
def ProveedorUpdate.applyTo (u : ProveedorUpdate) (r : ProveedorResponse) :
    ProveedorResponse :=
  { r with
    nombre := u.nombre.getD r.nombre
    nit := u.nit.getD r.nit
    descripcion := match u.descripcion with | some d => some d | none => r.descripcion
    num_art_comprados := u.num_art_comprados.getD r.num_art_comprados
    num_art_devoluciones := u.num_art_devoluciones.getD r.num_art_devoluciones
    num_art_vendidas := u.num_art_vendidas.getD r.num_art_vendidas
    num_compras := u.num_compras.getD r.num_compras
    valor_comprado := u.valor_comprado.getD r.valor_comprado
    num_devoluciones := u.num_devoluciones.getD r.num_devoluciones
    valor_devuelto := u.valor_devuelto.getD r.valor_devuelto
    num_ventas := u.num_ventas.getD r.num_ventas
    valor_vendido := u.valor_vendido.getD r.valor_vendido
    rating_art_provedor := match u.rating_art_provedor with
      | some v => some v
      | none => r.rating_art_provedor }

/-- Store-level execution of the dynamic UPDATE of `update_proveedor`:
no matching row returns no row; a new `nit` equal to the `nit` of another row
violates the uniqueness constraint; otherwise the row is updated and
returned. -/
def ProvStore.execUpdate (s : ProvStore) (id_proveedor : Int) (u : ProveedorUpdate) :
    Except PgError (Option ProveedorResponse) × ProvStore :=
  match s.rows.find? (fun r => r.id_proveedor == id_proveedor) with
  | none => (Except.ok none, s)
  | some r =>
      let r2 := u.applyTo r
      if s.rows.any (fun row => row.id_proveedor != id_proveedor && row.nit == r2.nit) then
        (Except.error PgError.uniqueViolation, s)
      else
        let newRows := s.rows.map (fun row => if row.id_proveedor == id_proveedor then r2 else row)
        (Except.ok (some r2), { s with rows := newRows })

/-- `ProveedorService.update_proveedor` (lines 113-206): builds the dynamic
field list; with no set field it returns the current row; otherwise it
executes the UPDATE and — per lines 202-203 — maps the
`UniqueViolationError` to the Python builtin `ValueError`
("Ya existe un proveedor con ese NIT"); any other exception is logged and
re-raised unchanged. -/
def ProveedorService.update_proveedor (s : ProvStore) (id_proveedor : Int)
    (u : ProveedorUpdate) : Except ProvServiceError (Option ProveedorResponse) × ProvStore :=
  let built := ProveedorService.updateFieldsValues u
  if built.1.isEmpty then
    (Except.ok (ProveedorService.get_proveedor_by_id s id_proveedor), s)
  else
    match s.execUpdate id_proveedor u with
    | (Except.ok row?, s2) => (Except.ok row?, s2)
    | (Except.error PgError.uniqueViolation, s2) =>
        (Except.error (ProvServiceError.valueError "Ya existe un proveedor con ese NIT"), s2)
    | (Except.error e, s2) => (Except.error (ProvServiceError.pgRaised e), s2)

/-- Store-level execution of `DELETE FROM psa_problems.proveedor WHERE
id_proveedor = $1`: removes the matching rows and returns the asyncpg
status string `"DELETE n"`. -/
def ProvStore.execDelete (s : ProvStore) (id_proveedor : Int) : String × ProvStore :=
  let n := (s.rows.filter (fun r => r.id_proveedor == id_proveedor)).length
  ("DELETE " ++ toString n,
   { s with rows := s.rows.filter (fun r => !(r.id_proveedor == id_proveedor)) })

/-- `ProveedorService.delete_proveedor` (lines 208-218): executes the DELETE
and returns `result == "DELETE 1"`; no exception is raised for a missing
row. -/
def ProveedorService.delete_proveedor (s : ProvStore) (id_proveedor : Int) :
    Bool × ProvStore :=
  let res := s.execDelete id_proveedor
  (res.1 == "DELETE 1", res.2)

/-! ### CompraProveedor entity (`app/models/compra_proveedor.py`,
`app/service/compra_proveedor_service.py`) -/

/-- `CompraProveedorCreate` (`app/models/compra_proveedor.py`). -/
structure CompraProveedorCreate where
  id_proveedor : Int
  valor_compra : Int
  factura : String
  fecha_compra : Option Int
  fecha_recibido : Option Int
  destino : Option String
  estado : Option Int
  deriving DecidableEq, Repr

/-- `CompraProveedorResponse`: the base fields plus the generated `id_compra`. -/
structure CompraProveedorResponse extends CompraProveedorCreate where
  id_compra : Int
  deriving DecidableEq, Repr

/-- The `psa_problems.compra_proveedor` table: UNIQUE constraint on
`factura`, FOREIGN KEY `id_proveedor` into the proveedor table (whose ids
are carried alongside), and a trace counter of INSERT statements. -/
structure CompraStore where
  rows : List CompraProveedorResponse
  proveedor_ids : List Int
  next_id : Int
  insert_attempts : Nat
  deriving DecidableEq, Repr

/-- Store-level `INSERT INTO psa_problems.compra_proveedor ... RETURNING *`:
a duplicate `factura` violates the uniqueness constraint; an `id_proveedor`
absent from the proveedor table violates the foreign key; otherwise the row
is stored under a fresh id and returned. -/
def CompraStore.execInsert (s : CompraStore) (d : CompraProveedorCreate) :
    Except PgError (Option CompraProveedorResponse) × CompraStore :=
  let s1 := { s with insert_attempts := s.insert_attempts + 1 }
  if s.rows.any (fun r => r.factura == d.factura) then
    (Except.error PgError.uniqueViolation, s1)
  else if !(s.proveedor_ids.contains d.id_proveedor) then
    (Except.error PgError.foreignKeyViolation, s1)
  else
    let row : CompraProveedorResponse := { d with id_compra := s.next_id }
    (Except.ok (some row), { s1 with rows := s.rows ++ [row], next_id := s.next_id + 1 })

/-- Errors surfaced by `CompraProveedorService`. -/
inductive CompraServiceError where
  | compraProveedorServiceError (msg : String)
  | compraProveedorNotFound (msg : String)
  | duplicateCompraProveedor (msg : String)
  deriving DecidableEq, Repr

/-- `CompraProveedorService.create_compra_proveedor` (lines 28-74): issues
the INSERT directly — there is no duplicate pre-check — and maps the
`UniqueViolationError` of the store to `DuplicateCompraProveedorError`,
`ForeignKeyViolationError` and other `PostgresError`s to
`CompraProveedorServiceError`. -/
def CompraProveedorService.create_compra_proveedor (s : CompraStore)
    (d : CompraProveedorCreate) :
    Except CompraServiceError CompraProveedorResponse × CompraStore :=
  match s.execInsert d with
  | (Except.ok (some row), s2) => (Except.ok row, s2)
  | (Except.ok none, s2) =>
      (Except.error (CompraServiceError.compraProveedorServiceError
        "No se pudo crear la compra de proveedor"), s2)
  | (Except.error PgError.uniqueViolation, s2) =>
      (Except.error (CompraServiceError.duplicateCompraProveedor
        ("Ya existe una compra con la factura: " ++ d.factura)), s2)
  | (Except.error PgError.foreignKeyViolation, s2) =>
      (Except.error (CompraServiceError.compraProveedorServiceError
        ("El proveedor con ID " ++ toString d.id_proveedor ++ " no existe")), s2)
  | (Except.error (PgError.postgresError e), s2) =>
      (Except.error (CompraServiceError.compraProveedorServiceError
        ("Error de base de datos: " ++ e)), s2)

/-! ## Theorems -/

/-- C9: the query builders defined in `app/core/utils.py` and the
identically named query builders defined in `app/core/base_repository.py`
return equal (statement, arguments) pairs for every input, so the
duplicated definitions are interchangeable. -/
theorem duplicated_query_builders_interchangeable {α : Type} (table_name id_field : String)
    (data : List (String × α)) (id_value : α) :
    Utils.build_insert_query table_name data = BaseRepo.build_insert_query table_name data ∧
    Utils.build_update_query table_name data id_field id_value =
      BaseRepo.build_update_query table_name data id_field id_value :=
  ⟨rfl, rfl⟩

/-- C3: `build_insert_query` and `build_update_query` raise `ValueError`
if and only if the supplied field map is empty; on every non-empty field
map they return normally, for any table name, id field and id value. -/
theorem builders_raise_valueerror_iff_empty {α : Type} (table_name id_field : String)
    (data : List (String × α)) (id_value : α) :
    (Utils.build_insert_query table_name data =
       Except.error (BuilderError.valueError "No hay datos para insertar") ↔ data = []) ∧
    (Utils.build_update_query table_name data id_field id_value =
       Except.error (BuilderError.valueError "No hay datos para actualizar") ↔ data = []) ∧
    (data ≠ [] → (∃ qv, Utils.build_insert_query table_name data = Except.ok qv) ∧
       ∃ qv, Utils.build_update_query table_name data id_field id_value = Except.ok qv) := by
  cases data with
  | nil =>
      refine ⟨by simp [Utils.build_insert_query], by simp [Utils.build_update_query], ?_⟩
      intro h; exact absurd rfl h
  | cons hd tl =>
      refine ⟨by simp [Utils.build_insert_query], by simp [Utils.build_update_query], ?_⟩
      intro _
      exact ⟨⟨_, rfl⟩, ⟨_, rfl⟩⟩

/-- C7: `health_check` always returns a boolean and never raises: it is
`true` exactly when connection acquisition and the trivial round-trip query
both succeed, and `false` on any failure of either step. -/
theorem health_check_boolean_never_raises (env : PgEnv) (st : DBConnState) :
    ((DatabaseConnection.health_check env st).1 = true ∨
     (DatabaseConnection.health_check env st).1 = false) ∧
    ((DatabaseConnection.health_check env st).1 = true ↔
      ∃ conn v, (DatabaseConnection.get_connection env st).1 = Except.ok conn ∧
        env.fetchval_select1 conn = Except.ok v) := by
  refine ⟨Bool.eq_false_or_eq_true _, ?_⟩
  rcases hg : DatabaseConnection.get_connection env st with ⟨g, st2⟩
  cases g with
  | error e =>
      simp [DatabaseConnection.health_check, hg]
  | ok conn =>
      cases hf : env.fetchval_select1 conn with
      | error e => simp [DatabaseConnection.health_check, hg, hf]
      | ok v => simp [DatabaseConnection.health_check, hg, hf]

/-- C8: `connect` is idempotent — with the pool already established it is a
no-op leaving the pool unchanged — and `disconnect` clears the pool state
to absent, so that a subsequent successful `connect` re-establishes a fresh
pool. -/
theorem connect_idempotent_disconnect_clears (env env2 : PgEnv) (st : DBConnState) (p : Pool) :
    DatabaseConnection.connect env { connection_pool := some p } =
      (Except.ok (), { connection_pool := some p }) ∧
    (DatabaseConnection.disconnect st).connection_pool = none ∧
    (∀ p2, env2.create_pool = Except.ok p2 →
      DatabaseConnection.connect env2 (DatabaseConnection.disconnect st) =
        (Except.ok (), { connection_pool := some p2 })) := by
  have hclear : DatabaseConnection.disconnect st = { connection_pool := none } := by
    rcases st with ⟨_ | p0⟩ <;> rfl
  refine ⟨rfl, by rw [hclear], ?_⟩
  intro p2 h
  rw [hclear]
  simp [DatabaseConnection.connect, h]

/-- C2: on every non-empty field map, `build_insert_query` yields one
placeholder per field, 1-based and strictly sequential in field-map
iteration order, with the argument list holding exactly the field values in
iteration order; `build_update_query` yields one `field = $i` fragment per
field plus one trailing id placeholder numbered `len(fieldMap) + 1`, with
the argument list holding the field values in iteration order and the id
value last, its length matching the placeholder count. -/
theorem query_builders_placeholder_discipline {α : Type} (table_name id_field : String)
    (data : List (String × α)) (id_value : α) (h : data ≠ []) :
    (Utils.build_insert_query table_name data = Except.ok
      ("\n        INSERT INTO " ++ table_name ++ " (" ++
         String.intercalate ", " (data.map Prod.fst) ++ ")\n        VALUES (" ++
         String.intercalate ", " (Utils.insert_placeholders data.length) ++
         ")\n        RETURNING *\n    ",
       data.map Prod.snd)) ∧
    (Utils.insert_placeholders data.length).length = data.length ∧
    (∀ i, i < data.length →
      (Utils.insert_placeholders data.length).getD i "" = "$" ++ toString (i + 1)) ∧
    (data.map Prod.snd).length = data.length ∧
    (Utils.build_update_query table_name data id_field id_value = Except.ok
      ("\n        UPDATE " ++ table_name ++ " \n        SET " ++
         String.intercalate ", " (Utils.update_fields_list data) ++
         "\n        WHERE " ++ id_field ++ " = $" ++ toString (data.length + 1) ++
         "\n        RETURNING *\n    ",
       data.map Prod.snd ++ [id_value])) ∧
    (Utils.update_fields_list data).length = data.length ∧
    (∀ i, i < data.length → ∀ dflt,
      (Utils.update_fields_list data).getD i "" =
        (data.getD i dflt).1 ++ " = $" ++ toString (i + 1)) ∧
    (data.map Prod.snd ++ [id_value]).length = data.length + 1 := by
  have hne : data.isEmpty = false := by
    cases data with
    | nil => exact absurd rfl h
    | cons a l => rfl
  refine ⟨?_, ?_, ?_, ?_, ?_, ?_, ?_, ?_⟩
  · simp [Utils.build_insert_query, hne]
  · simp [Utils.insert_placeholders]
  · intro i hi
    simp [Utils.insert_placeholders, List.getD_eq_getElem?_getD, List.getElem?_map,
      List.getElem?_range', hi, Nat.add_comm]
  · simp
  · simp [Utils.build_update_query, hne]
  · simp [Utils.update_fields_list]
  · intro i hi dflt
    simp [Utils.update_fields_list, List.getD_eq_getElem?_getD, List.getElem?_map,
      List.getElem?_enum, hi, List.getElem?_eq_getElem hi]
  · simp

/-- The two-field example map from the docstrings, used as witness input. -/
def sampleFieldMap : List (String × Int) := [("name", 10), ("age", 30)]

/-- Witness for C2 at the concrete two-field map. -/
theorem query_builders_placeholder_discipline_witness :
    sampleFieldMap ≠ [] ∧
    ((Utils.build_insert_query "users" sampleFieldMap = Except.ok
      ("\n        INSERT INTO " ++ "users" ++ " (" ++
         String.intercalate ", " (sampleFieldMap.map Prod.fst) ++ ")\n        VALUES (" ++
         String.intercalate ", " (Utils.insert_placeholders sampleFieldMap.length) ++
         ")\n        RETURNING *\n    ",
       sampleFieldMap.map Prod.snd)) ∧
    (Utils.insert_placeholders sampleFieldMap.length).length = sampleFieldMap.length ∧
    (∀ i, i < sampleFieldMap.length →
      (Utils.insert_placeholders sampleFieldMap.length).getD i "" = "$" ++ toString (i + 1)) ∧
    (sampleFieldMap.map Prod.snd).length = sampleFieldMap.length ∧
    (Utils.build_update_query "users" sampleFieldMap "id" (1 : Int) = Except.ok
      ("\n        UPDATE " ++ "users" ++ " \n        SET " ++
         String.intercalate ", " (Utils.update_fields_list sampleFieldMap) ++
         "\n        WHERE " ++ "id" ++ " = $" ++ toString (sampleFieldMap.length + 1) ++
         "\n        RETURNING *\n    ",
       sampleFieldMap.map Prod.snd ++ [(1 : Int)])) ∧
    (Utils.update_fields_list sampleFieldMap).length = sampleFieldMap.length ∧
    (∀ i, i < sampleFieldMap.length → ∀ dflt,
      (Utils.update_fields_list sampleFieldMap).getD i "" =
        (sampleFieldMap.getD i dflt).1 ++ " = $" ++ toString (i + 1)) ∧
    (sampleFieldMap.map Prod.snd ++ [(1 : Int)]).length = sampleFieldMap.length + 1) :=
  ⟨by decide, query_builders_placeholder_discipline "users" "id" sampleFieldMap 1 (by decide)⟩

/-- Witness for C3: on the non-empty two-field map both builders return
normally. -/
theorem builders_raise_valueerror_iff_empty_witness :
    sampleFieldMap ≠ [] ∧
    ((∃ qv, Utils.build_insert_query "users" sampleFieldMap = Except.ok qv) ∧
     ∃ qv, Utils.build_update_query "users" sampleFieldMap "id" (1 : Int) = Except.ok qv) :=
  ⟨by decide,
   (builders_raise_valueerror_iff_empty "users" "id" sampleFieldMap 1).2.2 (by decide)⟩

/-- C4: `BaseRepository.update` with an empty field map leaves the store
untouched (no write statement is issued), returns the current entity when
it exists, fails with `NotFound` when it does not, and repeating the empty
update yields the same result (idempotence). -/
theorem base_repository_update_empty_map (repo : BaseRepository) {α : Type} [BEq α]
    (s : Store α) (id_value : α) :
    ((repo.update s id_value []).2 = s) ∧
    (∀ r, repo.find_by_id s id_value = some r →
      repo.update s id_value [] = (Except.ok r, s)) ∧
    (repo.find_by_id s id_value = none →
      repo.update s id_value [] =
        (Except.error (RepoError.notFound repo.table_name id_value), s)) ∧
    (repo.update ((repo.update s id_value []).2) id_value [] = repo.update s id_value []) := by
  have hbase : ∀ t : Store α, repo.update t id_value [] =
      (match repo.find_by_id t id_value with
       | none => (Except.error (RepoError.notFound repo.table_name id_value), t)
       | some existing => (Except.ok existing, t)) := fun t => rfl
  have hsnd : (repo.update s id_value []).2 = s := by
    rw [hbase]
    cases repo.find_by_id s id_value <;> rfl
  refine ⟨hsnd, ?_, ?_, ?_⟩
  · intro r hr
    rw [hbase, hr]
  · intro hr
    rw [hbase, hr]
  · rw [hsnd]

/-- Repository descriptor used as witness input. -/
def sampleRepo : BaseRepository :=
  { table_name := "proveedor", id_field := "id_proveedor", schema := some "psa_problems" }

/-- One-row store used as witness input. -/
def sampleStore : Store Int :=
  { rows := [[("id_proveedor", 1), ("num_compras", 4)]], writes := 0 }

/-- Witness for C4 at a concrete store: id 1 exists, id 2 does not. -/
theorem base_repository_update_empty_map_witness :
    sampleRepo.find_by_id sampleStore (1 : Int) =
      some [("id_proveedor", 1), ("num_compras", 4)] ∧
    sampleRepo.update sampleStore (1 : Int) [] =
      (Except.ok [("id_proveedor", 1), ("num_compras", 4)], sampleStore) ∧
    sampleRepo.find_by_id sampleStore (2 : Int) = none ∧
    sampleRepo.update sampleStore (2 : Int) [] =
      (Except.error (RepoError.notFound "proveedor" 2), sampleStore) := by
  refine ⟨by decide, ?_, by decide, ?_⟩
  · exact (base_repository_update_empty_map sampleRepo sampleStore 1).2.1 _ (by decide)
  · exact (base_repository_update_empty_map sampleRepo sampleStore 2).2.2.1 (by decide)

/-- C10: `delete_proveedor` returns `True` exactly when the status string
reported by the store is `"DELETE 1"`; for an id matching no row it returns
`False`, raising no error. -/
theorem delete_proveedor_true_iff_delete_one (s : ProvStore) (id_proveedor : Int) :
    ((ProveedorService.delete_proveedor s id_proveedor).1 = true ↔
      (s.execDelete id_proveedor).1 = "DELETE 1") ∧
    ((∀ r ∈ s.rows, r.id_proveedor ≠ id_proveedor) →
      (ProveedorService.delete_proveedor s id_proveedor).1 = false) := by
  constructor
  · simp [ProveedorService.delete_proveedor]
  · intro h
    have hfilter : s.rows.filter (fun r => r.id_proveedor == id_proveedor) = [] := by
      rw [List.filter_eq_nil_iff]
      intro r hr
      simpa using h r hr
    simp [ProveedorService.delete_proveedor, ProvStore.execDelete, hfilter]
    decide

/-- Supplier payload with NIT "123", used as concrete input. -/
def sampleProveedorCreate : ProveedorCreate :=
  { nombre := "Acme", nit := "123", descripcion := none,
    num_art_comprados := 0, num_art_devoluciones := 0, num_art_vendidas := 0,
    num_compras := 0, valor_comprado := 0, num_devoluciones := 0,
    valor_devuelto := 0, num_ventas := 0, valor_vendido := 0,
    rating_art_provedor := some 0 }

/-- The stored supplier row with id 1 and NIT "123". -/
def sampleProvRow : ProveedorResponse :=
  { toProveedorCreate := sampleProveedorCreate, id_proveedor := 1 }

/-- A proveedor table already holding the NIT "123". -/
def sampleProvStore : ProvStore :=
  { rows := [sampleProvRow], next_id := 2, insert_attempts := 0 }

/-- Witness for C10: deleting id 2, which matches no row, returns `false`. -/
theorem delete_proveedor_true_iff_delete_one_witness :
    (∀ r ∈ sampleProvStore.rows, r.id_proveedor ≠ (2 : Int)) ∧
    (ProveedorService.delete_proveedor sampleProvStore 2).1 = false :=
  ⟨by decide, (delete_proveedor_true_iff_delete_one sampleProvStore 2).2 (by decide)⟩

/-- C1 counterexample: creating a supplier whose NIT "123" is already
present does not fail before any store-level uniqueness constraint is
touched — the INSERT is issued (the count of insert statements seen by the
store rises from 0 to 1) and the `Duplicate` error is produced by the
store rejection, there being no service pre-check. -/
theorem create_proveedor_no_precheck_counterexample :
    sampleProvStore.insert_attempts = 0 ∧
    (ProveedorService.create_proveedor sampleProvStore sampleProveedorCreate).2.insert_attempts = 1 ∧
    (ProveedorService.create_proveedor sampleProvStore sampleProveedorCreate).1 =
      Except.error (ProvServiceError.duplicateProveedor
        "Ya existe un proveedor con el NIT: 123") :=
  ⟨rfl, rfl, rfl⟩

/-- C1 amended: when the business key (supplier NIT, purchase invoice
number) is already present, `create` fails with the `Duplicate` kind, but
only through the store rejecting the INSERT that the service always
issues — the specialized services perform no pre-check of their own. -/
theorem create_duplicate_only_from_store (s : ProvStore) (d : ProveedorCreate)
    (cs : CompraStore) (cd : CompraProveedorCreate)
    (hnit : s.rows.any (fun r => r.nit == d.nit) = true)
    (hfac : cs.rows.any (fun r => r.factura == cd.factura) = true) :
    ((ProveedorService.create_proveedor s d).1 =
      Except.error (ProvServiceError.duplicateProveedor
        ("Ya existe un proveedor con el NIT: " ++ d.nit))) ∧
    ((ProveedorService.create_proveedor s d).2.insert_attempts = s.insert_attempts + 1) ∧
    ((CompraProveedorService.create_compra_proveedor cs cd).1 =
      Except.error (CompraServiceError.duplicateCompraProveedor
        ("Ya existe una compra con la factura: " ++ cd.factura))) ∧
    ((CompraProveedorService.create_compra_proveedor cs cd).2.insert_attempts =
      cs.insert_attempts + 1) := by
  have h1 : s.execInsert d = (Except.error PgError.uniqueViolation,
      { s with insert_attempts := s.insert_attempts + 1 }) := by
    simp [ProvStore.execInsert, hnit]
  have h2 : cs.execInsert cd = (Except.error PgError.uniqueViolation,
      { cs with insert_attempts := cs.insert_attempts + 1 }) := by
    simp [CompraStore.execInsert, hfac]
  refine ⟨?_, ?_, ?_, ?_⟩ <;>
    simp [ProveedorService.create_proveedor,
      CompraProveedorService.create_compra_proveedor, h1, h2]

/-- Purchase payload with invoice number "F-1", used as concrete input. -/
def sampleCompraCreate : CompraProveedorCreate :=
  { id_proveedor := 1, valor_compra := 100, factura := "F-1",
    fecha_compra := none, fecha_recibido := none, destino := none, estado := some 0 }

/-- The stored purchase row with id 1 and invoice "F-1". -/
def sampleCompraRow : CompraProveedorResponse :=
  { toCompraProveedorCreate := sampleCompraCreate, id_compra := 1 }

/-- A compra_proveedor table already holding invoice "F-1". -/
def sampleCompraStore : CompraStore :=
  { rows := [sampleCompraRow], proveedor_ids := [1], next_id := 2, insert_attempts := 0 }

/-- Witness for the amended C1 at concrete stores holding the NIT and the
invoice number being re-created. -/
theorem create_duplicate_only_from_store_witness :
    (sampleProvStore.rows.any (fun r => r.nit == sampleProveedorCreate.nit) = true) ∧
    (sampleCompraStore.rows.any (fun r => r.factura == sampleCompraCreate.factura) = true) ∧
    ((ProveedorService.create_proveedor sampleProvStore sampleProveedorCreate).1 =
      Except.error (ProvServiceError.duplicateProveedor
        ("Ya existe un proveedor con el NIT: " ++ sampleProveedorCreate.nit))) ∧
    ((ProveedorService.create_proveedor sampleProvStore sampleProveedorCreate).2.insert_attempts =
      sampleProvStore.insert_attempts + 1) ∧
    ((CompraProveedorService.create_compra_proveedor sampleCompraStore sampleCompraCreate).1 =
      Except.error (CompraServiceError.duplicateCompraProveedor
        ("Ya existe una compra con la factura: " ++ sampleCompraCreate.factura))) ∧
    ((CompraProveedorService.create_compra_proveedor sampleCompraStore sampleCompraCreate).2.insert_attempts =
      sampleCompraStore.insert_attempts + 1) := by
  obtain ⟨h1, h2, h3, h4⟩ := create_duplicate_only_from_store sampleProvStore
    sampleProveedorCreate sampleCompraStore sampleCompraCreate (by decide) (by decide)
  exact ⟨by decide, by decide, h1, h2, h3, h4⟩

/-- Supplier row id 1, NIT "A". -/
def sampleProvRowA : ProveedorResponse :=
  { toProveedorCreate := { sampleProveedorCreate with nit := "A" }, id_proveedor := 1 }

/-- Supplier row id 2, NIT "B". -/
def sampleProvRowB : ProveedorResponse :=
  { toProveedorCreate := { sampleProveedorCreate with nombre := "Beta", nit := "B" },
    id_proveedor := 2 }

/-- A proveedor table with two rows of distinct NITs "A" and "B". -/
def provStoreAB : ProvStore :=
  { rows := [sampleProvRowA, sampleProvRowB], next_id := 3, insert_attempts := 0 }

/-- The update payload setting only `nit` to "B". -/
def updateNitToB : ProveedorUpdate :=
  { nombre := none, nit := some "B", descripcion := none,
    num_art_comprados := none, num_art_devoluciones := none, num_art_vendidas := none,
    num_compras := none, valor_comprado := none, num_devoluciones := none,
    valor_devuelto := none, num_ventas := none, valor_vendido := none,
    rating_art_provedor := none }

/-- C6, evaluated at the failing input: updating supplier 1 to the NIT "B"
already held by supplier 2 makes the store raise its uniqueness violation,
and `update_proveedor` surfaces it as the Python builtin `ValueError`
(lines 202-203 of `app/service/proveedor_service.py`) — not as the
`Duplicate` kind (`DuplicateProveedorError`) that `create_proveedor` uses,
contradicting the claim that the mapping is the same as for create. -/
theorem update_proveedor_unique_violation_yields_valueerror :
    ((ProveedorService.update_proveedor provStoreAB 1 updateNitToB).1 =
      Except.error (ProvServiceError.valueError "Ya existe un proveedor con ese NIT")) ∧
    (∀ msg, (ProveedorService.update_proveedor provStoreAB 1 updateNitToB).1 ≠
      Except.error (ProvServiceError.duplicateProveedor msg)) := by
  have h1 : (ProveedorService.update_proveedor provStoreAB 1 updateNitToB).1 =
      Except.error (ProvServiceError.valueError "Ya existe un proveedor con ese NIT") := rfl
  refine ⟨h1, ?_⟩
  intro msg hcontra
  rw [h1] at hcontra
  simp at hcontra

/-- Parsing the asyncpg status string for zero affected rows. -/
theorem parse_delete_status_zero :
    parseNat (lastWhitespaceToken ("DELETE " ++ toString (0 : Nat))) = 0 := rfl

/-- Parsing the asyncpg status string for one affected row. -/
theorem parse_delete_status_one :
    parseNat (lastWhitespaceToken ("DELETE " ++ toString (1 : Nat))) = 1 := rfl

/-- In a list with pairwise-distinct keys, at most one element carries any
given key (the primary-key invariant of the backing table). -/
theorem length_filter_eq_key_le_one {β γ : Type} [BEq γ] [LawfulBEq γ]
    (l : List β) (f : β → γ) (hnd : (l.map f).Nodup) (c : γ) :
    (l.filter (fun b => f b == c)).length ≤ 1 := by
  induction l with
  | nil => simp
  | cons a l ih =>
      simp only [List.map_cons, List.nodup_cons] at hnd
      by_cases hpa : (f a == c) = true
      · have hnil : l.filter (fun b => f b == c) = [] := by
          rw [List.filter_eq_nil_iff]
          intro b hb hfb
          apply hnd.1
          have h1 : f b = c := by simpa using hfb
          have h2 : f a = c := by simpa using hpa
          rw [List.mem_map]
          exact ⟨b, hb, h1.trans h2.symm⟩
        rw [List.filter_cons]
        simp [hpa, hnil]
      · rw [List.filter_cons]
        simp only [hpa, if_false]
        exact ih hnd.2

/-- C5: when the id column is a primary key (pairwise-distinct values),
`BaseRepository.delete` fails with `NotFound` whenever the store reports
zero affected rows, and returns the success boolean `True` whenever at
least one row was affected. -/
theorem base_repository_delete_row_count (repo : BaseRepository) {α : Type}
    [BEq α] [LawfulBEq α] (s : Store α) (id_value : α)
    (hpk : (s.rows.map (fun r => Row.getField r repo.id_field)).Nodup) :
    ((s.rows.filter (fun r => Row.getField r repo.id_field == some id_value)).length = 0 →
      repo.delete s id_value =
        (Except.error (RepoError.notFound repo.table_name id_value),
         { rows := s.rows.filter (fun r => !(Row.getField r repo.id_field == some id_value)),
           writes := s.writes + 1 })) ∧
    (0 < (s.rows.filter (fun r => Row.getField r repo.id_field == some id_value)).length →
      repo.delete s id_value =
        (Except.ok true,
         { rows := s.rows.filter (fun r => !(Row.getField r repo.id_field == some id_value)),
           writes := s.writes + 1 })) := by
  have hle := length_filter_eq_key_le_one s.rows
    (fun r => Row.getField r repo.id_field) hpk (some id_value)
  constructor
  · intro h0
    simp only [BaseRepository.delete, Store.execDelete]
    rw [h0, parse_delete_status_zero]
    simp
  · intro hpos
    have h1 : (s.rows.filter
        (fun r => Row.getField r repo.id_field == some id_value)).length = 1 := by
      omega
    simp only [BaseRepository.delete, Store.execDelete]
    rw [h1, parse_delete_status_one]
    simp

/-- Witness for C5 at the concrete one-row store: deleting id 1 (present)
succeeds, deleting id 2 (absent) fails with `NotFound`. -/
theorem base_repository_delete_row_count_witness :
    ((sampleStore.rows.map (fun r => Row.getField r sampleRepo.id_field)).Nodup) ∧
    (0 < (sampleStore.rows.filter
      (fun r => Row.getField r sampleRepo.id_field == some (1 : Int))).length) ∧
    sampleRepo.delete sampleStore (1 : Int) =
      (Except.ok true,
       { rows := sampleStore.rows.filter
           (fun r => !(Row.getField r sampleRepo.id_field == some (1 : Int))),
         writes := sampleStore.writes + 1 }) ∧
    ((sampleStore.rows.filter
      (fun r => Row.getField r sampleRepo.id_field == some (2 : Int))).length = 0) ∧
    sampleRepo.delete sampleStore (2 : Int) =
      (Except.error (RepoError.notFound "proveedor" 2),
       { rows := sampleStore.rows.filter
           (fun r => !(Row.getField r sampleRepo.id_field == some (2 : Int))),
         writes := sampleStore.writes + 1 }) := by
  refine ⟨by decide, by decide, ?_, by decide, ?_⟩
  · exact (base_repository_delete_row_count sampleRepo sampleStore 1 (by decide)).2 (by decide)
  · exact (base_repository_delete_row_count sampleRepo sampleStore 2 (by decide)).1 (by decide)

/-- Witness for C8 at a concrete environment and state. -/
theorem connect_idempotent_disconnect_clears_witness :
    (DatabaseConnection.connect
        { create_pool := Except.ok ⟨7⟩, acquire := fun _ => Except.ok 0,
          fetchval_select1 := fun _ => Except.ok 1 }
        { connection_pool := some ⟨3⟩ } =
      (Except.ok (), { connection_pool := some ⟨3⟩ })) ∧
    (DatabaseConnection.disconnect { connection_pool := some ⟨3⟩ }).connection_pool = none ∧
    DatabaseConnection.connect
        { create_pool := Except.ok ⟨7⟩, acquire := fun _ => Except.ok 0,
          fetchval_select1 := fun _ => Except.ok 1 }
        (DatabaseConnection.disconnect { connection_pool := some ⟨3⟩ }) =
      (Except.ok (), { connection_pool := some ⟨7⟩ }) := by
  obtain ⟨h1, h2, h3⟩ := connect_idempotent_disconnect_clears
    { create_pool := Except.ok ⟨7⟩, acquire := fun _ => Except.ok 0,
      fetchval_select1 := fun _ => Except.ok 1 }
    { create_pool := Except.ok ⟨7⟩, acquire := fun _ => Except.ok 0,
      fetchval_select1 := fun _ => Except.ok 1 }
    { connection_pool := some ⟨3⟩ } ⟨3⟩
  exact ⟨h1, h2, h3 ⟨7⟩ rfl⟩

end YeyoBack
